import Mathlib

/-!
Verification of the keymap utility (`util.py`): device resolution,
the feature-report keymap protocol, dry-run formatting, argument checks
and handle lifecycle, shallowly embedded as pure Lean functions over an
explicit environment (enumeration result, transport responses, file
contents) together with a trace of externally observable events.
-/

set_option autoImplicit false

namespace NPKU

/-- Substring test on byte/char lists, the semantics of the Python
membership test on byte strings (`marker in path`). -/
def hasSub (m : List Char) : List Char → Bool
  | [] => m.isEmpty
  | c :: rest => m.isPrefixOf (c :: rest) || hasSub m rest

/-- The request-channel path marker, from the source constant string. -/
def col05 : List Char := "&Col05".toList

/-- The data-channel path marker, from the source constant string. -/
def col06 : List Char := "&Col06".toList

/-- One HID interface descriptor as returned by enumeration: the fields
the program reads, plus the vendor/product identity. -/
structure Descriptor where
  path : List Char
  interface_number : Int
  usage : Nat
  usage_page : Nat
  vendor_id : Nat
  product_id : Nat
deriving DecidableEq

/-- The filter applied to enumerated descriptors. -/
def passesFilter (d : Descriptor) : Bool :=
  d.interface_number != -1 && d.usage == 1 && d.usage_page == 0xff00

/-- The distinct failure modes of device resolution; each mirrors one
raise site of the source, with the data the message carries. -/
inductive ResolveError where
  | deviceNotFound
  | multipleRequest (p1 p2 : List Char)
  | multipleData (p1 p2 : List Char)
  | noRequest
  | noData
deriving DecidableEq

/-- The classification loop over the enumerated descriptors, with the two
path accumulators; initial value of both accumulators is the empty
(byte) string, as in the source. -/
def resolveLoop : List Descriptor → List Char → List Char →
    Except ResolveError (List Char × List Char)
  | [], request_path, data_path => Except.ok (request_path, data_path)
  | device :: rest, request_path, data_path =>
    if passesFilter device then
      if hasSub col05 device.path then
        if request_path ≠ [] then
          Except.error (ResolveError.multipleRequest request_path device.path)
        else
          resolveLoop rest device.path data_path
      else if hasSub col06 device.path then
        if data_path ≠ [] then
          Except.error (ResolveError.multipleData data_path device.path)
        else
          resolveLoop rest request_path device.path
      else
        resolveLoop rest request_path data_path
    else
      resolveLoop rest request_path data_path

/-- Device resolution over the list of descriptors that enumeration
returned. -/
def get_device (devices : List Descriptor) :
    Except ResolveError (List Char × List Char) :=
  if devices.isEmpty then
    Except.error ResolveError.deviceNotFound
  else
    match resolveLoop devices [] [] with
    | Except.error e => Except.error e
    | Except.ok (request_path, data_path) =>
      if request_path = [] then Except.error ResolveError.noRequest
      else if data_path = [] then Except.error ResolveError.noData
      else Except.ok (request_path, data_path)

/-- The descriptors that pass the filter. -/
def filtered (l : List Descriptor) : List Descriptor :=
  l.filter passesFilter

/-- A filtered descriptor is taken as a request-channel match when its
path contains the request marker. -/
def isReqMatch (d : Descriptor) : Bool := hasSub col05 d.path

/-- A filtered descriptor is taken as a data-channel match when the
data-marker branch is reached and succeeds: path without the request
marker but with the data marker. -/
def isDatMatch (d : Descriptor) : Bool :=
  !hasSub col05 d.path && hasSub col06 d.path

/-- Filtered descriptors the loop classifies as request matches. -/
def reqMatches (l : List Descriptor) : List Descriptor :=
  (filtered l).filter isReqMatch

/-- Filtered descriptors the loop classifies as data matches. -/
def datMatches (l : List Descriptor) : List Descriptor :=
  (filtered l).filter isDatMatch

/-- Whether a resolution error is a duplicate-match (ambiguous device)
failure. -/
def isAmbig : ResolveError → Bool
  | ResolveError.multipleRequest _ _ => true
  | ResolveError.multipleData _ _ => true
  | _ => false

/-- The fixed 6-byte read header. -/
def get_keymap_header : List Nat := [0x05, 0x84, 0xd8, 0x00, 0x00, 0x00]

/-- The fixed 8-byte write header. -/
def set_keymap_header : List Nat :=
  [0x06, 0x04, 0xd8, 0x00, 0x40, 0x00, 0x00, 0x00]

/-- The maximum feature-report length requested on read. -/
def max_request_size : Nat := 0x7ff

/-- The truncation applied to a read response before persisting it:
drop the first 8 bytes. -/
def strip_response (l : List Nat) : List Nat := l.drop 8

/-- Lowercase hexadecimal rendering of a number, zero-padded on the left
to the given width, the semantics of the 0-padded hex format specifier. -/
def hexPad (width n : Nat) : String :=
  let ds := Nat.toDigits 16 n
  String.mk (List.replicate (width - ds.length) '0' ++ ds)

/-- Space-separated two-digit hex rendering of a byte list. -/
def list_to_hex (int_list : List Nat) : String :=
  String.intercalate " " (int_list.map (fun i => hexPad 2 i))

/-- Successive slices of length 4 of a list, the chunking computed by the
list comprehension over ranges of stride 4. -/
def chunksOf4 : List Nat → List (List Nat)
  | [] => []
  | [a] => [[a]]
  | [a, b] => [[a, b]]
  | [a, b, c] => [[a, b, c]]
  | a :: b :: c :: d :: rest => [a, b, c, d] :: chunksOf4 rest

/-- The hex-dump template: one line per 4-byte chunk, each line a 4-digit
hex offset, two spaces, the chunk bytes in two-digit hex, and a newline. -/
def format_to_hex_template (int_list : List Nat) : String :=
  String.join ((chunksOf4 int_list).enum.map
    (fun p => hexPad 4 (p.1 * 4) ++ "  " ++ list_to_hex p.2 ++ "\n"))

/-- The parsed command-line arguments: optional read output path,
optional write input path, force flag. -/
structure Args where
  read : Option String
  write : Option String
  force : Bool

/-- Truthiness of an optional string argument: present and non-empty. -/
def truthy : Option String → Bool
  | none => false
  | some s => decide (s ≠ "")

/-- The environment a run interacts with: the descriptors enumeration
returns, the byte counts the transport reports for the two sends, the
data-channel feature-report response, and the content of the write-input
file (none when opening it fails). -/
structure Env where
  devices : List Descriptor
  send_request_result : Nat
  feature_response : List Nat
  send_data_result : Nat
  input_bytes : Option (List Nat)

/-- The two channel handles the program opens. -/
inductive Handle where
  | request
  | data
deriving DecidableEq

/-- Externally observable events of a run, in order. -/
inductive Event where
  | enumerate
  | openPath (h : Handle) (p : List Char)
  | sendFeatureReport (h : Handle) (frame : List Nat)
  | getFeatureReport (h : Handle) (reportId maxLen : Nat)
  | openInputFile (name : String)
  | writeOutputFile (name : String) (content : List Nat)
  | printLine (s : String)
  | closeHandle (h : Handle)
deriving DecidableEq

/-- Terminal failures of a run. -/
inductive MainError where
  | usageError
  | resolveError (e : ResolveError)
  | fileReadError
deriving DecidableEq

/-- The lines printed during a trace. -/
def printedLines (t : List Event) : List String :=
  t.filterMap (fun e =>
    match e with
    | Event.printLine s => some s
    | _ => none)

/-- The events of the read branch once it is entered. -/
def read_events (force : Bool) (output_file : String) (env : Env) :
    List Event :=
  if force then
    [Event.printLine
       ("Reading keymap from keyboard and saving to " ++ output_file ++ "."),
     Event.sendFeatureReport Handle.request get_keymap_header,
     Event.printLine
       ("Sent " ++ toString env.send_request_result ++ " bytes to keyboard."),
     Event.getFeatureReport Handle.data 0x06 max_request_size,
     Event.printLine
       ("Received " ++ toString env.feature_response.length ++
        " bytes from keyboard."),
     Event.writeOutputFile output_file (strip_response env.feature_response)]
  else
    [Event.printLine
       ("Command to read keymap and save to " ++ output_file ++
        " (no action taken, use -f to execute)."),
     Event.printLine (list_to_hex get_keymap_header),
     Event.printLine
       ("Length: " ++ toString get_keymap_header.length ++ " bytes")]

/-- The write branch once it is entered: the input file is opened and
read before the force flag is consulted; a missing input file aborts the
run at that point. -/
def write_step (force : Bool) (input_file : String) (env : Env) :
    List Event × Except MainError Unit :=
  match env.input_bytes with
  | none => ([Event.openInputFile input_file],
             Except.error MainError.fileReadError)
  | some content =>
    let write_keymap_buffer := set_keymap_header ++ content
    if force then
      ([Event.openInputFile input_file,
        Event.printLine ("Writing keymap from " ++ input_file ++ " to keyboard."),
        Event.sendFeatureReport Handle.data write_keymap_buffer,
        Event.printLine
          ("Sent " ++ toString env.send_data_result ++ " bytes to keyboard.")],
       Except.ok ())
    else
      ([Event.openInputFile input_file,
        Event.printLine
          ("Command to write keymap from " ++ input_file ++
           " to keyboard (no action taken, use -f to execute)."),
        Event.printLine (list_to_hex write_keymap_buffer),
        Event.printLine
          ("Length: " ++ toString write_keymap_buffer.length ++ " bytes")],
       Except.ok ())

/-- The run after resolution succeeded and the two handles were opened.
The close calls at the end of the program run only when no exception
interrupted the run, so on a failing write branch no close event occurs. -/
def main_opened (args : Args) (env : Env)
    (request_path data_path : List Char) : List Event × Except MainError Unit :=
  let ev0 := [Event.enumerate,
              Event.openPath Handle.request request_path,
              Event.openPath Handle.data data_path]
  let readEvents :=
    if truthy args.read then read_events args.force (args.read.getD "") env
    else []
  if truthy args.write then
    match write_step args.force (args.write.getD "") env with
    | (wev, Except.ok _) =>
      (ev0 ++ readEvents ++ wev ++
         [Event.closeHandle Handle.request, Event.closeHandle Handle.data],
       Except.ok ())
    | (wev, Except.error e) =>
      (ev0 ++ readEvents ++ wev, Except.error e)
  else
    (ev0 ++ readEvents ++
       [Event.closeHandle Handle.request, Event.closeHandle Handle.data],
     Except.ok ())

/-- The run after the argument check, dispatching on the outcome of
resolution (which performs the enumeration call). -/
def main_resolved (args : Args) (env : Env) :
    Except ResolveError (List Char × List Char) →
    List Event × Except MainError Unit
  | Except.error e => ([Event.enumerate], Except.error (MainError.resolveError e))
  | Except.ok (request_path, data_path) =>
    main_opened args env request_path data_path

/-- The whole run: the usage check precedes any device interaction. -/
def main (args : Args) (env : Env) : List Event × Except MainError Unit :=
  if truthy args.read && truthy args.write then
    ([], Except.error MainError.usageError)
  else if !truthy args.read && !truthy args.write then
    ([], Except.error MainError.usageError)
  else
    main_resolved args env (get_device env.devices)

/-! ### Concrete descriptors and environments used as test inputs -/

/-- A well-formed request-channel descriptor. -/
def dReq : Descriptor := ⟨"a&Col05x".toList, 0, 1, 0xff00, 0x05ac, 0x024f⟩

/-- A well-formed data-channel descriptor. -/
def dDat : Descriptor := ⟨"a&Col06x".toList, 0, 1, 0xff00, 0x05ac, 0x024f⟩

/-- A second request-channel descriptor with a different path. -/
def dReq2 : Descriptor := ⟨"b&Col05y".toList, 0, 1, 0xff00, 0x05ac, 0x024f⟩

/-- A second data-channel descriptor with a different path. -/
def dDat2 : Descriptor := ⟨"b&Col06y".toList, 0, 1, 0xff00, 0x05ac, 0x024f⟩

/-- A descriptor whose path carries both markers. -/
def dBoth : Descriptor :=
  ⟨"a&Col05&Col06x".toList, 0, 1, 0xff00, 0x05ac, 0x024f⟩

/-- A descriptor rejected by the filter (interface number -1) whose path
nevertheless carries the request marker. -/
def dUnf : Descriptor := ⟨"c&Col05z".toList, -1, 1, 0xff00, 0x05ac, 0x024f⟩

/-- The two-descriptor enumeration that resolves cleanly. -/
def devOK : List Descriptor := [dReq, dDat]

/-- An environment with a clean enumeration, a 10-byte read response and
a 2-byte input file. -/
def envOK : Env := ⟨devOK, 6, [1, 2, 3, 4, 5, 6, 7, 8, 9, 10], 10,
  some [0xAA, 0xBB]⟩

/-- An environment whose read response is shorter than 8 bytes. -/
def envShort : Env := ⟨devOK, 6, [1, 2, 3], 10, some []⟩

/-- An environment with a clean enumeration but a missing input file. -/
def envNoFile : Env := ⟨devOK, 6, [1, 2, 3], 10, none⟩

/-- An environment whose enumeration is empty. -/
def envEmpty : Env := ⟨[], 0, [], 0, none⟩

/-! ### Helper lemmas on the resolution loop -/

theorem reqMatches_cons (d : Descriptor) (l : List Descriptor) :
    reqMatches (d :: l) =
      if passesFilter d && isReqMatch d then d :: reqMatches l
      else reqMatches l := by
  cases hf : passesFilter d <;> cases hr : isReqMatch d <;>
    simp [reqMatches, filtered, List.filter_cons, hf, hr]

theorem datMatches_cons (d : Descriptor) (l : List Descriptor) :
    datMatches (d :: l) =
      if passesFilter d && isDatMatch d then d :: datMatches l
      else datMatches l := by
  cases hf : passesFilter d <;> cases hr : isDatMatch d <;>
    simp [datMatches, filtered, List.filter_cons, hf, hr]

theorem hasSub_ne_nil {m p : List Char} (hm : m.isEmpty = false)
    (h : hasSub m p = true) : p ≠ [] := by
  intro hp
  subst hp
  simp [hasSub] at h
  rw [h] at hm
  simp at hm

theorem reqMatch_path_ne_nil {d : Descriptor} (h : isReqMatch d = true) :
    d.path ≠ [] :=
  hasSub_ne_nil (by decide) h

theorem datMatch_path_ne_nil {d : Descriptor} (h : isDatMatch d = true) :
    d.path ≠ [] := by
  have h6 : hasSub col06 d.path = true := by
    simp [isDatMatch] at h
    exact h.2
  exact hasSub_ne_nil (by decide) h6

theorem devices_ne_nil_of_reqMatches {l : List Descriptor}
    (h : reqMatches l ≠ []) : l.isEmpty = false := by
  cases l with
  | nil => simp [reqMatches, filtered] at h
  | cons d t => rfl

theorem devices_ne_nil_of_datMatches {l : List Descriptor}
    (h : datMatches l ≠ []) : l.isEmpty = false := by
  cases l with
  | nil => simp [datMatches, filtered] at h
  | cons d t => rfl

theorem loop_no_matches : ∀ (l : List Descriptor) (req dat : List Char),
    reqMatches l = [] → datMatches l = [] →
    resolveLoop l req dat = Except.ok (req, dat)
  | [], _, _, _, _ => rfl
  | d :: rest, req, dat, hr, hd => by
    rw [reqMatches_cons] at hr
    rw [datMatches_cons] at hd
    cases hf : passesFilter d <;> cases h5 : hasSub col05 d.path <;>
        cases h6 : hasSub col06 d.path <;>
        simp [isReqMatch, isDatMatch, hf, h5, h6] at hr hd <;>
        simp [resolveLoop, hf, h5, h6] <;>
        exact loop_no_matches rest _ _ hr hd

theorem loop_one_dat : ∀ (l : List Descriptor) (req : List Char)
    (d2 : Descriptor), reqMatches l = [] → datMatches l = [d2] →
    resolveLoop l req [] = Except.ok (req, d2.path)
  | [], _, _, _, hd => by simp [datMatches, filtered] at hd
  | d :: rest, req, d2, hr, hd => by
    rw [reqMatches_cons] at hr
    rw [datMatches_cons] at hd
    cases hf : passesFilter d <;> cases h5 : hasSub col05 d.path <;>
      cases h6 : hasSub col06 d.path <;>
      simp [isReqMatch, isDatMatch, hf, h5, h6] at hr hd <;>
      simp [resolveLoop, hf, h5, h6] <;>
      first
        | exact loop_one_dat rest req d2 hr hd
        | (obtain ⟨rfl, hd2⟩ := hd
           exact loop_no_matches rest req d.path hr hd2)

theorem loop_one_req : ∀ (l : List Descriptor) (dat : List Char)
    (d1 : Descriptor), reqMatches l = [d1] → datMatches l = [] →
    resolveLoop l [] dat = Except.ok (d1.path, dat)
  | [], _, _, hr, _ => by simp [reqMatches, filtered] at hr
  | d :: rest, dat, d1, hr, hd => by
    rw [reqMatches_cons] at hr
    rw [datMatches_cons] at hd
    cases hf : passesFilter d <;> cases h5 : hasSub col05 d.path <;>
      cases h6 : hasSub col06 d.path <;>
      simp [isReqMatch, isDatMatch, hf, h5, h6] at hr hd <;>
      simp [resolveLoop, hf, h5, h6] <;>
      first
        | exact loop_one_req rest dat d1 hr hd
        | (obtain ⟨rfl, hr2⟩ := hr
           exact loop_no_matches rest d.path dat hr2 hd)

theorem loop_one_each : ∀ (l : List Descriptor) (d1 d2 : Descriptor),
    reqMatches l = [d1] → datMatches l = [d2] →
    resolveLoop l [] [] = Except.ok (d1.path, d2.path)
  | [], d1, _, hr, _ => by simp [reqMatches, filtered] at hr
  | d :: rest, d1, d2, hr, hd => by
    rw [reqMatches_cons] at hr
    rw [datMatches_cons] at hd
    cases hf : passesFilter d <;> cases h5 : hasSub col05 d.path <;>
      cases h6 : hasSub col06 d.path <;>
      simp [isReqMatch, isDatMatch, hf, h5, h6] at hr hd <;>
      simp [resolveLoop, hf, h5, h6] <;>
      first
        | exact loop_one_each rest d1 d2 hr hd
        | (obtain ⟨rfl, hr2⟩ := hr
           exact loop_one_dat rest d.path d2 hr2 hd)
        | (obtain ⟨rfl, hd2⟩ := hd
           exact loop_one_req rest d.path d1 hr hd2)

theorem loop_dup_req_tail : ∀ (l : List Descriptor) (req dat : List Char)
    (d : Descriptor) (rs : List Descriptor),
    reqMatches l = d :: rs → req ≠ [] →
    ((dat = [] ∧ (datMatches l).length ≤ 1) ∨ (dat ≠ [] ∧ datMatches l = [])) →
    resolveLoop l req dat = Except.error (ResolveError.multipleRequest req d.path)
  | [], _, _, _, _, hr, _, _ => by simp [reqMatches, filtered] at hr
  | a :: rest, req, dat, d, rs, hr, hreq, hI => by
    rcases hI with ⟨rfl, hlen⟩ | ⟨hne, hD⟩
    · cases hf : passesFilter a <;> cases h5 : hasSub col05 a.path <;>
        cases h6 : hasSub col06 a.path <;>
        simp [reqMatches_cons, datMatches_cons, isReqMatch, isDatMatch,
              hf, h5, h6] at hr hlen <;>
        simp [resolveLoop, hf, h5, h6, hreq] <;>
        first
          | exact loop_dup_req_tail rest req [] d rs hr hreq (Or.inl ⟨rfl, hlen⟩)
          | (obtain ⟨rfl, hr2⟩ := hr; rfl)
          | (have hD0 : datMatches rest = [] := hlen
             exact loop_dup_req_tail rest req a.path d rs hr hreq
               (Or.inr ⟨hasSub_ne_nil (by decide) h6, hD0⟩))
    · cases hf : passesFilter a <;> cases h5 : hasSub col05 a.path <;>
        cases h6 : hasSub col06 a.path <;>
        simp [reqMatches_cons, datMatches_cons, isReqMatch, isDatMatch,
              hf, h5, h6] at hr hD <;>
        simp [resolveLoop, hf, h5, h6, hreq] <;>
        first
          | exact loop_dup_req_tail rest req dat d rs hr hreq (Or.inr ⟨hne, hD⟩)
          | (obtain ⟨rfl, hr2⟩ := hr; rfl)


theorem loop_dup_req : ∀ (l : List Descriptor) (dat : List Char)
    (d1 d2 : Descriptor) (rs : List Descriptor),
    reqMatches l = d1 :: d2 :: rs →
    ((dat = [] ∧ (datMatches l).length ≤ 1) ∨ (dat ≠ [] ∧ datMatches l = [])) →
    resolveLoop l [] dat =
      Except.error (ResolveError.multipleRequest d1.path d2.path)
  | [], _, _, _, _, hr, _ => by simp [reqMatches, filtered] at hr
  | a :: rest, dat, d1, d2, rs, hr, hI => by
    rcases hI with ⟨rfl, hlen⟩ | ⟨hne, hD⟩
    · cases hf : passesFilter a <;> cases h5 : hasSub col05 a.path <;>
        cases h6 : hasSub col06 a.path <;>
        simp [reqMatches_cons, datMatches_cons, isReqMatch, isDatMatch,
              hf, h5, h6] at hr hlen <;>
        simp [resolveLoop, hf, h5, h6] <;>
        first
          | exact loop_dup_req rest [] d1 d2 rs hr (Or.inl ⟨rfl, hlen⟩)
          | (obtain ⟨rfl, hr2⟩ := hr
             exact loop_dup_req_tail rest a.path [] d2 rs hr2
               (hasSub_ne_nil (by decide) h5) (Or.inl ⟨rfl, hlen⟩))
          | (have hD0 : datMatches rest = [] := hlen
             exact loop_dup_req rest a.path d1 d2 rs hr
               (Or.inr ⟨hasSub_ne_nil (by decide) h6, hD0⟩))
    · cases hf : passesFilter a <;> cases h5 : hasSub col05 a.path <;>
        cases h6 : hasSub col06 a.path <;>
        simp [reqMatches_cons, datMatches_cons, isReqMatch, isDatMatch,
              hf, h5, h6] at hr hD <;>
        simp [resolveLoop, hf, h5, h6] <;>
        first
          | exact loop_dup_req rest dat d1 d2 rs hr (Or.inr ⟨hne, hD⟩)
          | (obtain ⟨rfl, hr2⟩ := hr
             exact loop_dup_req_tail rest a.path dat d2 rs hr2
               (hasSub_ne_nil (by decide) h5) (Or.inr ⟨hne, hD⟩))

theorem loop_dup_dat_tail : ∀ (l : List Descriptor) (req dat : List Char)
    (d : Descriptor) (rs : List Descriptor),
    datMatches l = d :: rs → dat ≠ [] →
    ((req = [] ∧ (reqMatches l).length ≤ 1) ∨ (req ≠ [] ∧ reqMatches l = [])) →
    resolveLoop l req dat = Except.error (ResolveError.multipleData dat d.path)
  | [], _, _, _, _, hd, _, _ => by simp [datMatches, filtered] at hd
  | a :: rest, req, dat, d, rs, hd, hdat, hI => by
    rcases hI with ⟨rfl, hlen⟩ | ⟨hne, hR⟩
    · cases hf : passesFilter a <;> cases h5 : hasSub col05 a.path <;>
        cases h6 : hasSub col06 a.path <;>
        simp [reqMatches_cons, datMatches_cons, isReqMatch, isDatMatch,
              hf, h5, h6] at hd hlen <;>
        simp [resolveLoop, hf, h5, h6, hdat] <;>
        first
          | exact loop_dup_dat_tail rest [] dat d rs hd hdat (Or.inl ⟨rfl, hlen⟩)
          | (obtain ⟨rfl, hd2⟩ := hd; rfl)
          | (have hR0 : reqMatches rest = [] := hlen
             exact loop_dup_dat_tail rest a.path dat d rs hd hdat
               (Or.inr ⟨hasSub_ne_nil (by decide) h5, hR0⟩))
    · cases hf : passesFilter a <;> cases h5 : hasSub col05 a.path <;>
        cases h6 : hasSub col06 a.path <;>
        simp [reqMatches_cons, datMatches_cons, isReqMatch, isDatMatch,
              hf, h5, h6] at hd hR <;>
        simp [resolveLoop, hf, h5, h6, hdat, hne] <;>
        first
          | exact loop_dup_dat_tail rest req dat d rs hd hdat (Or.inr ⟨hne, hR⟩)
          | (obtain ⟨rfl, hd2⟩ := hd; rfl)

theorem loop_dup_dat : ∀ (l : List Descriptor) (req : List Char)
    (d1 d2 : Descriptor) (rs : List Descriptor),
    datMatches l = d1 :: d2 :: rs →
    ((req = [] ∧ (reqMatches l).length ≤ 1) ∨ (req ≠ [] ∧ reqMatches l = [])) →
    resolveLoop l req [] =
      Except.error (ResolveError.multipleData d1.path d2.path)
  | [], _, _, _, _, hd, _ => by simp [datMatches, filtered] at hd
  | a :: rest, req, d1, d2, rs, hd, hI => by
    rcases hI with ⟨rfl, hlen⟩ | ⟨hne, hR⟩
    · cases hf : passesFilter a <;> cases h5 : hasSub col05 a.path <;>
        cases h6 : hasSub col06 a.path <;>
        simp [reqMatches_cons, datMatches_cons, isReqMatch, isDatMatch,
              hf, h5, h6] at hd hlen <;>
        simp [resolveLoop, hf, h5, h6] <;>
        first
          | exact loop_dup_dat rest [] d1 d2 rs hd (Or.inl ⟨rfl, hlen⟩)
          | (obtain ⟨rfl, hd2⟩ := hd
             exact loop_dup_dat_tail rest [] a.path d2 rs hd2
               (hasSub_ne_nil (by decide) h6) (Or.inl ⟨rfl, hlen⟩))
          | (have hR0 : reqMatches rest = [] := hlen
             exact loop_dup_dat rest a.path d1 d2 rs hd
               (Or.inr ⟨hasSub_ne_nil (by decide) h5, hR0⟩))
    · cases hf : passesFilter a <;> cases h5 : hasSub col05 a.path <;>
        cases h6 : hasSub col06 a.path <;>
        simp [reqMatches_cons, datMatches_cons, isReqMatch, isDatMatch,
              hf, h5, h6] at hd hR <;>
        simp [resolveLoop, hf, h5, h6] <;>
        first
          | exact loop_dup_dat rest req d1 d2 rs hd (Or.inr ⟨hne, hR⟩)
          | (obtain ⟨rfl, hd2⟩ := hd
             exact loop_dup_dat_tail rest req a.path d2 rs hd2
               (hasSub_ne_nil (by decide) h6) (Or.inr ⟨hne, hR⟩))


theorem loop_ambiguous : ∀ (l : List Descriptor) (req dat : List Char),
    (2 ≤ (reqMatches l).length + (if req = [] then 0 else 1) ∨
     2 ≤ (datMatches l).length + (if dat = [] then 0 else 1)) →
    ∃ e, resolveLoop l req dat = Except.error e ∧ isAmbig e = true
  | [], req, dat, h => by
    rcases h with h | h
    all_goals simp [reqMatches, datMatches, filtered] at h
    all_goals (split at h <;> omega)
  | a :: rest, req, dat, h => by
    cases hf : passesFilter a <;> cases h5 : hasSub col05 a.path <;>
      cases h6 : hasSub col06 a.path
    case false.false.false | false.false.true | false.true.false
       | false.true.true | true.false.false =>
      simp [reqMatches_cons, datMatches_cons, isReqMatch, isDatMatch,
            hf, h5, h6] at h
      simp [resolveLoop, hf, h5, h6]
      exact loop_ambiguous rest req dat h
    case true.true.false | true.true.true =>
      by_cases hq : req = []
      · subst hq
        simp [reqMatches_cons, datMatches_cons, isReqMatch, isDatMatch,
              hf, h5, h6] at h
        simp [resolveLoop, hf, h5, h6]
        apply loop_ambiguous rest a.path dat
        have hp : a.path ≠ [] := hasSub_ne_nil (by decide) h5
        rcases h with h | h
        · left
          simp [hp]
          omega
        · right
          exact h
      · refine ⟨ResolveError.multipleRequest req a.path, ?_, rfl⟩
        simp [resolveLoop, hf, h5, hq]
    case true.false.true =>
      by_cases hq : dat = []
      · subst hq
        simp [reqMatches_cons, datMatches_cons, isReqMatch, isDatMatch,
              hf, h5, h6] at h
        simp [resolveLoop, hf, h5, h6]
        apply loop_ambiguous rest req a.path
        have hp : a.path ≠ [] := hasSub_ne_nil (by decide) h6
        rcases h with h | h
        · left
          exact h
        · right
          simp [hp]
          omega
      · refine ⟨ResolveError.multipleData dat a.path, ?_, rfl⟩
        simp [resolveLoop, hf, h5, h6, hq]

theorem get_device_of_unique (devices : List Descriptor) (d1 d2 : Descriptor)
    (h1 : reqMatches devices = [d1]) (h2 : datMatches devices = [d2]) :
    get_device devices = Except.ok (d1.path, d2.path) := by
  have hni : devices.isEmpty = false :=
    devices_ne_nil_of_reqMatches (by simp [h1])
  have hp1 : d1.path ≠ [] := by
    have hm : d1 ∈ reqMatches devices := by simp [h1]
    exact reqMatch_path_ne_nil (List.mem_filter.mp hm).2
  have hp2 : d2.path ≠ [] := by
    have hm : d2 ∈ datMatches devices := by simp [h2]
    exact datMatch_path_ne_nil (List.mem_filter.mp hm).2
  have hloop := loop_one_each devices d1 d2 h1 h2
  simp [get_device, hni, hloop, hp1, hp2]

theorem filter_and_singleton {α : Type} (p q r : α → Bool)
    (hr : ∀ x, r x = (p x && q x)) :
    ∀ (l : List α) (a : α), l.filter q = [a] → p a = true →
    l.filter r = [a]
  | [], a, h, _ => by simp at h
  | b :: t, a, h, hp => by
    rw [List.filter_cons] at h ⊢
    rw [hr b]
    cases hq : q b
    · simp [hq] at h ⊢
      exact filter_and_singleton p q r hr t a h hp
    · simp [hq] at h
      obtain ⟨rfl, ht⟩ := h
      simp [hp, hq]
      intro x hx
      rw [hr x]
      simp [ht x hx]

/-! ### Claims about device resolution -/

/-- C1 (amended): if, after the filter, exactly one descriptor has a path
containing the request marker and exactly one, distinct from it, has a
path containing the data marker, resolution succeeds and returns those
two paths unchanged in (request, data) order. -/
theorem get_device_unique_distinct_ok (devices : List Descriptor)
    (d1 d2 : Descriptor)
    (h1 : (filtered devices).filter (fun d => hasSub col05 d.path) = [d1])
    (h2 : (filtered devices).filter (fun d => hasSub col06 d.path) = [d2])
    (hne : d1 ≠ d2) :
    get_device devices = Except.ok (d1.path, d2.path) := by
  have hr : reqMatches devices = [d1] := h1
  have h2mem : d2 ∈ (filtered devices).filter (fun d => hasSub col06 d.path) := by
    simp [h2]
  have hd2f : d2 ∈ filtered devices := (List.mem_filter.mp h2mem).1
  have hnc5 : (!hasSub col05 d2.path) = true := by
    by_contra hc
    simp at hc
    have hmem : d2 ∈ (filtered devices).filter (fun d => hasSub col05 d.path) :=
      List.mem_filter.mpr ⟨hd2f, hc⟩
    rw [h1] at hmem
    simp at hmem
    exact hne hmem.symm
  have hd : datMatches devices = [d2] :=
    filter_and_singleton (fun d => !hasSub col05 d.path)
      (fun d => hasSub col06 d.path) isDatMatch
      (fun x => by simp [isDatMatch])
      (filtered devices) d2 h2 hnc5
  exact get_device_of_unique devices d1 d2 hr hd

/-- Witness for C1: a clean two-descriptor enumeration resolves to the
two marked paths. -/
theorem get_device_unique_distinct_ok_witness :
    get_device [dReq, dDat] = Except.ok (dReq.path, dDat.path) :=
  get_device_unique_distinct_ok [dReq, dDat] dReq dDat (by decide) (by decide)
    (by decide)

/-- Counterexample to C1 as stated: a single filtered descriptor whose
path contains both markers is the unique descriptor containing the
request marker and the unique descriptor containing the data marker, yet
resolution fails instead of returning the two (equal) paths. -/
theorem get_device_both_markers_counterexample :
    ((filtered [dBoth]).filter (fun d => hasSub col05 d.path)).length = 1 ∧
    ((filtered [dBoth]).filter (fun d => hasSub col06 d.path)).length = 1 ∧
    get_device [dBoth] = Except.error ResolveError.noData :=
  ⟨by decide, by decide, rfl⟩

/-- C2 (amended): resolution fails exactly in these cases, where a
request match is a filtered descriptor whose path contains the request
marker and a data match is a filtered descriptor whose path contains the
data marker but not the request marker: empty enumeration gives the
device-not-found failure; two request matches (with at most one data
match) give the duplicate-request failure naming the first two matching
paths; dually for two data matches; any duplicated marker gives some
duplicate-match failure; no request match (with at most one data match)
gives the missing-request failure; a unique request match with no data
match gives the missing-data failure. -/
theorem get_device_failure_cases (devices : List Descriptor) :
    (devices.isEmpty = true →
      get_device devices = Except.error ResolveError.deviceNotFound)
    ∧ (∀ d1 d2 rs, reqMatches devices = d1 :: d2 :: rs →
        (datMatches devices).length ≤ 1 →
        get_device devices =
          Except.error (ResolveError.multipleRequest d1.path d2.path))
    ∧ (∀ d1 d2 rs, datMatches devices = d1 :: d2 :: rs →
        (reqMatches devices).length ≤ 1 →
        get_device devices =
          Except.error (ResolveError.multipleData d1.path d2.path))
    ∧ (2 ≤ (reqMatches devices).length ∨ 2 ≤ (datMatches devices).length →
        ∃ e, get_device devices = Except.error e ∧ isAmbig e = true)
    ∧ (reqMatches devices = [] → (datMatches devices).length ≤ 1 →
        devices.isEmpty = false →
        get_device devices = Except.error ResolveError.noRequest)
    ∧ (∀ d1, reqMatches devices = [d1] → datMatches devices = [] →
        get_device devices = Except.error ResolveError.noData) := by
  refine ⟨?_, ?_, ?_, ?_, ?_, ?_⟩
  · intro h
    simp [get_device, h]
  · intro d1 d2 rs hr hlen
    have hni : devices.isEmpty = false :=
      devices_ne_nil_of_reqMatches (by simp [hr])
    have hloop := loop_dup_req devices [] d1 d2 rs hr (Or.inl ⟨rfl, hlen⟩)
    simp [get_device, hni, hloop]
  · intro d1 d2 rs hd hlen
    have hni : devices.isEmpty = false :=
      devices_ne_nil_of_datMatches (by simp [hd])
    have hloop := loop_dup_dat devices [] d1 d2 rs hd (Or.inl ⟨rfl, hlen⟩)
    simp [get_device, hni, hloop]
  · intro h
    have hni : devices.isEmpty = false := by
      rcases h with h | h
      · apply devices_ne_nil_of_reqMatches
        intro h0
        rw [h0] at h
        simp at h
      · apply devices_ne_nil_of_datMatches
        intro h0
        rw [h0] at h
        simp at h
    obtain ⟨e, he, ha⟩ := loop_ambiguous devices [] [] (by
      rcases h with h | h
      · left
        simpa using h
      · right
        simpa using h)
    exact ⟨e, by simp [get_device, hni, he], ha⟩
  · intro hr hlen hni
    cases hD : datMatches devices with
    | nil =>
      have hloop := loop_no_matches devices [] [] hr hD
      simp [get_device, hni, hloop]
    | cons d t =>
      cases t with
      | nil =>
        have hloop := loop_one_dat devices [] d hr hD
        simp [get_device, hni, hloop]
      | cons d2 t2 =>
        rw [hD] at hlen
        simp at hlen
  · intro d1 h1 h2
    have hni : devices.isEmpty = false :=
      devices_ne_nil_of_reqMatches (by simp [h1])
    have hp1 : d1.path ≠ [] := by
      have hm : d1 ∈ reqMatches devices := by simp [h1]
      exact reqMatch_path_ne_nil (List.mem_filter.mp hm).2
    have hloop := loop_one_req devices [] d1 h1 h2
    simp [get_device, hni, hloop, hp1]

/-- Witness for C2: each failure case exercised on a concrete
enumeration. -/
theorem get_device_failure_cases_witness :
    get_device [] = Except.error ResolveError.deviceNotFound ∧
    get_device [dReq, dReq2] =
      Except.error (ResolveError.multipleRequest dReq.path dReq2.path) ∧
    get_device [dDat, dDat2] =
      Except.error (ResolveError.multipleData dDat.path dDat2.path) ∧
    (∃ e, get_device [dReq, dReq2, dDat, dDat2] = Except.error e ∧
      isAmbig e = true) ∧
    get_device [dDat] = Except.error ResolveError.noRequest ∧
    get_device [dReq] = Except.error ResolveError.noData :=
  ⟨(get_device_failure_cases []).1 rfl,
   (get_device_failure_cases [dReq, dReq2]).2.1 dReq dReq2 []
     (by decide) (by decide),
   (get_device_failure_cases [dDat, dDat2]).2.2.1 dDat dDat2 []
     (by decide) (by decide),
   (get_device_failure_cases [dReq, dReq2, dDat, dDat2]).2.2.2.1
     (Or.inl (by decide)),
   (get_device_failure_cases [dDat]).2.2.2.2.1 (by decide) (by decide) rfl,
   (get_device_failure_cases [dReq]).2.2.2.2.2 dReq (by decide) (by decide)⟩

/-- Counterexample to C2 as stated: two filtered descriptors both carry
the data marker in their paths, yet resolution succeeds instead of
failing with a duplicate-match error, because the descriptor that also
carries the request marker is classified as the request channel. -/
theorem get_device_data_marker_ambiguity_counterexample :
    ((filtered [dBoth, dDat]).filter (fun d => hasSub col06 d.path)).length = 2 ∧
    get_device [dBoth, dDat] = Except.ok (dBoth.path, dDat.path) :=
  ⟨by decide, rfl⟩

/-- C9: a filtered descriptor whose path contains both markers is
classified only as the request channel (with an empty request accumulator
it becomes the request path and the data accumulator is untouched; with a
non-empty one the failure is the duplicate-request one), and a descriptor
rejected by the filter leaves the loop state entirely unchanged whatever
its path contains. -/
theorem classification_priority_and_filter (l : List Descriptor)
    (req dat : List Char) (d : Descriptor) :
    (passesFilter d = true → hasSub col05 d.path = true →
      hasSub col06 d.path = true →
      (resolveLoop (d :: l) [] dat = resolveLoop l d.path dat ∧
       (req ≠ [] → resolveLoop (d :: l) req dat =
          Except.error (ResolveError.multipleRequest req d.path)))) ∧
    (passesFilter d = false →
      resolveLoop (d :: l) req dat = resolveLoop l req dat) := by
  constructor
  · intro hf h5 _
    constructor
    · simp [resolveLoop, hf, h5]
    · intro hq
      simp [resolveLoop, hf, h5, hq]
  · intro hf
    simp [resolveLoop, hf]

/-- Witness for C9: the both-marker descriptor is consumed as the request
channel, and a filtered-out descriptor with a marker in its path is
skipped. -/
theorem classification_priority_and_filter_witness :
    resolveLoop (dBoth :: [dDat]) [] [] = resolveLoop [dDat] dBoth.path [] ∧
    resolveLoop (dUnf :: [dReq, dDat]) [] [] = resolveLoop [dReq, dDat] [] [] :=
  ⟨((classification_priority_and_filter [dDat] [] [] dBoth).1
      (by decide) (by decide) (by decide)).1,
   (classification_priority_and_filter [dReq, dDat] [] [] dUnf).2 (by decide)⟩

/-! ### Claims about the protocol engine and the run as a whole -/

/-- C3: a forced read sends exactly the 6-byte header
05 84 d8 00 00 00 as a feature report on the request handle, then
requests a feature report of id 0x06 and maximum length 0x7ff on the
data handle, persists the response with its first 8 bytes removed, and a
response shorter than 8 bytes yields an empty persisted blob with the
run still ending in success. -/
theorem forced_read_trace (out : String) (env : Env) (rp dp : List Char)
    (hout : out ≠ "") (hres : get_device env.devices = Except.ok (rp, dp)) :
    main ⟨some out, none, true⟩ env =
      ([Event.enumerate, Event.openPath Handle.request rp,
        Event.openPath Handle.data dp,
        Event.printLine
          ("Reading keymap from keyboard and saving to " ++ out ++ "."),
        Event.sendFeatureReport Handle.request
          [0x05, 0x84, 0xd8, 0x00, 0x00, 0x00],
        Event.printLine
          ("Sent " ++ toString env.send_request_result ++ " bytes to keyboard."),
        Event.getFeatureReport Handle.data 0x06 0x7ff,
        Event.printLine
          ("Received " ++ toString env.feature_response.length ++
           " bytes from keyboard."),
        Event.writeOutputFile out (strip_response env.feature_response),
        Event.closeHandle Handle.request, Event.closeHandle Handle.data],
       Except.ok ()) ∧
    (env.feature_response.length < 8 → strip_response env.feature_response = []) := by
  have ht : truthy (some out) = true := by simp [truthy, hout]
  constructor
  · simp [main, ht, truthy, hout, hres, main_resolved, main_opened,
          read_events, get_keymap_header, max_request_size]
  · intro h
    simp [strip_response]
    omega

/-- Witness for C3: a forced read against a clean enumeration whose
response is shorter than 8 bytes; the persisted blob is empty and the
run still completes. -/
theorem forced_read_trace_witness :
    (main ⟨some "o", none, true⟩ envShort =
      ([Event.enumerate, Event.openPath Handle.request dReq.path,
        Event.openPath Handle.data dDat.path,
        Event.printLine
          ("Reading keymap from keyboard and saving to " ++ "o" ++ "."),
        Event.sendFeatureReport Handle.request
          [0x05, 0x84, 0xd8, 0x00, 0x00, 0x00],
        Event.printLine
          ("Sent " ++ toString envShort.send_request_result ++
           " bytes to keyboard."),
        Event.getFeatureReport Handle.data 0x06 0x7ff,
        Event.printLine
          ("Received " ++ toString envShort.feature_response.length ++
           " bytes from keyboard."),
        Event.writeOutputFile "o" (strip_response envShort.feature_response),
        Event.closeHandle Handle.request, Event.closeHandle Handle.data],
       Except.ok ())) ∧
    strip_response envShort.feature_response = [] :=
  have h := forced_read_trace "o" envShort dReq.path dDat.path
    (by decide) rfl
  ⟨h.1, h.2 (by decide)⟩

/-- C7: when both the read and write target paths are set (present and
non-empty) or neither is, the run ends with the usage error and an empty
event trace: no enumeration, no open, no transport call. -/
theorem usage_error_before_interaction (args : Args) (env : Env)
    (h : (truthy args.read = true ∧ truthy args.write = true) ∨
         (truthy args.read = false ∧ truthy args.write = false)) :
    main args env = ([], Except.error MainError.usageError) := by
  rcases h with ⟨h1, h2⟩ | ⟨h1, h2⟩ <;> simp [main, h1, h2]

/-- Witness for C7: the no-arguments invocation. -/
theorem usage_error_before_interaction_witness :
    main ⟨none, none, false⟩ envEmpty = ([], Except.error MainError.usageError) :=
  usage_error_before_interaction ⟨none, none, false⟩ envEmpty (Or.inr ⟨rfl, rfl⟩)

/-- C5: the write header is 8 bytes long and, for every blob of length
at most the maximum request size, prefixing the write header and then
applying the read-side truncation returns the blob unchanged. -/
theorem write_read_roundtrip :
    set_keymap_header.length = 8 ∧
    ∀ B : List Nat, B.length ≤ max_request_size →
      strip_response (set_keymap_header ++ B) = B := by
  refine ⟨rfl, fun B _ => ?_⟩
  simp [strip_response, set_keymap_header]

/-- Witness for C5: the round trip on the two-byte payload. -/
theorem write_read_roundtrip_witness :
    ([0xAA, 0xBB] : List Nat).length ≤ max_request_size ∧
    strip_response (set_keymap_header ++ [0xAA, 0xBB]) = [0xAA, 0xBB] :=
  ⟨by decide, write_read_roundtrip.2 [0xAA, 0xBB] (by decide)⟩

/-- C6: a forced write with payload B sends exactly the 8-byte header
06 04 d8 00 40 00 00 00 followed by all of B as one feature report on
the data handle; no other feature report is sent, none on the request
handle, and no hypothesis bounds the length of B (no maximum-size check
at this layer). -/
theorem forced_write_trace (inf : String) (env : Env) (rp dp : List Char)
    (B : List Nat) (hinf : inf ≠ "")
    (hres : get_device env.devices = Except.ok (rp, dp))
    (hfile : env.input_bytes = some B) :
    main ⟨none, some inf, true⟩ env =
      ([Event.enumerate, Event.openPath Handle.request rp,
        Event.openPath Handle.data dp,
        Event.openInputFile inf,
        Event.printLine ("Writing keymap from " ++ inf ++ " to keyboard."),
        Event.sendFeatureReport Handle.data
          ([0x06, 0x04, 0xd8, 0x00, 0x40, 0x00, 0x00, 0x00] ++ B),
        Event.printLine
          ("Sent " ++ toString env.send_data_result ++ " bytes to keyboard."),
        Event.closeHandle Handle.request, Event.closeHandle Handle.data],
       Except.ok ()) ∧
    (∀ (h : Handle) (frame : List Nat),
      Event.sendFeatureReport h frame ∈ (main ⟨none, some inf, true⟩ env).1 →
      h = Handle.data ∧ frame = set_keymap_header ++ B) := by
  have ht : truthy (some inf) = true := by simp [truthy, hinf]
  have htr : main ⟨none, some inf, true⟩ env =
      ([Event.enumerate, Event.openPath Handle.request rp,
        Event.openPath Handle.data dp,
        Event.openInputFile inf,
        Event.printLine ("Writing keymap from " ++ inf ++ " to keyboard."),
        Event.sendFeatureReport Handle.data
          ([0x06, 0x04, 0xd8, 0x00, 0x40, 0x00, 0x00, 0x00] ++ B),
        Event.printLine
          ("Sent " ++ toString env.send_data_result ++ " bytes to keyboard."),
        Event.closeHandle Handle.request, Event.closeHandle Handle.data],
       Except.ok ()) := by
    simp [main, ht, truthy, hinf, hres, main_resolved, main_opened,
          write_step, hfile, set_keymap_header]
  refine ⟨htr, ?_⟩
  intro h frame hmem
  rw [htr] at hmem
  simp [set_keymap_header] at hmem
  exact ⟨hmem.1, hmem.2⟩

/-- Witness for C6: a forced write of the two-byte payload. -/
theorem forced_write_trace_witness :
    main ⟨none, some "i", true⟩ envOK =
      ([Event.enumerate, Event.openPath Handle.request dReq.path,
        Event.openPath Handle.data dDat.path,
        Event.openInputFile "i",
        Event.printLine ("Writing keymap from " ++ "i" ++ " to keyboard."),
        Event.sendFeatureReport Handle.data
          ([0x06, 0x04, 0xd8, 0x00, 0x40, 0x00, 0x00, 0x00] ++ [0xAA, 0xBB]),
        Event.printLine
          ("Sent " ++ toString envOK.send_data_result ++ " bytes to keyboard."),
        Event.closeHandle Handle.request, Event.closeHandle Handle.data],
       Except.ok ()) ∧
    (∀ (h : Handle) (frame : List Nat),
      Event.sendFeatureReport h frame ∈ (main ⟨none, some "i", true⟩ envOK).1 →
      h = Handle.data ∧ frame = set_keymap_header ++ [0xAA, 0xBB]) :=
  forced_write_trace "i" envOK dReq.path dDat.path [0xAA, 0xBB]
    (by decide) rfl rfl

/-- Counterexample to C8 as stated: with a clean enumeration but a
missing input file, a forced write opens both handles and then fails,
and no close event occurs before the run ends. -/
theorem handles_unclosed_counterexample :
    (main ⟨none, some "f", true⟩ envNoFile).1 =
      [Event.enumerate, Event.openPath Handle.request dReq.path,
       Event.openPath Handle.data dDat.path, Event.openInputFile "f"] ∧
    (main ⟨none, some "f", true⟩ envNoFile).2 =
      Except.error MainError.fileReadError ∧
    Event.closeHandle Handle.request ∉ (main ⟨none, some "f", true⟩ envNoFile).1 ∧
    Event.closeHandle Handle.data ∉ (main ⟨none, some "f", true⟩ envNoFile).1 :=
  ⟨by decide, rfl, by decide, by decide⟩

/-- C8 (amended): on every run that completes its operation (read, or
write with a readable input file, forced or not) both handles are closed
before exit; but on a write run whose input file fails to open after the
handles were opened, the run ends in failure without closing either
handle. -/
theorem handle_close_characterization :
    (∀ (out : String) (f : Bool) (env : Env) (rp dp : List Char), out ≠ "" →
      get_device env.devices = Except.ok (rp, dp) →
      (main ⟨some out, none, f⟩ env).2 = Except.ok () ∧
      Event.closeHandle Handle.request ∈ (main ⟨some out, none, f⟩ env).1 ∧
      Event.closeHandle Handle.data ∈ (main ⟨some out, none, f⟩ env).1) ∧
    (∀ (inf : String) (f : Bool) (env : Env) (rp dp : List Char) (B : List Nat),
      inf ≠ "" → get_device env.devices = Except.ok (rp, dp) →
      env.input_bytes = some B →
      (main ⟨none, some inf, f⟩ env).2 = Except.ok () ∧
      Event.closeHandle Handle.request ∈ (main ⟨none, some inf, f⟩ env).1 ∧
      Event.closeHandle Handle.data ∈ (main ⟨none, some inf, f⟩ env).1) ∧
    (∀ (inf : String) (f : Bool) (env : Env) (rp dp : List Char), inf ≠ "" →
      get_device env.devices = Except.ok (rp, dp) → env.input_bytes = none →
      (main ⟨none, some inf, f⟩ env).2 = Except.error MainError.fileReadError ∧
      Event.closeHandle Handle.request ∉ (main ⟨none, some inf, f⟩ env).1 ∧
      Event.closeHandle Handle.data ∉ (main ⟨none, some inf, f⟩ env).1) := by
  refine ⟨?_, ?_, ?_⟩
  · intro out f env rp dp hout hres
    have ht : truthy (some out) = true := by simp [truthy, hout]
    cases f <;>
      simp [main, ht, truthy, hout, hres, main_resolved, main_opened,
            read_events]
  · intro inf f env rp dp B hinf hres hfile
    have ht : truthy (some inf) = true := by simp [truthy, hinf]
    cases f <;>
      simp [main, ht, truthy, hinf, hres, main_resolved, main_opened,
            write_step, hfile]
  · intro inf f env rp dp hinf hres hfile
    have ht : truthy (some inf) = true := by simp [truthy, hinf]
    cases f <;>
      simp [main, ht, truthy, hinf, hres, main_resolved, main_opened,
            write_step, hfile]

/-- Witness for C8 (amended): close events on the completing read and
write runs, and their absence on the missing-file write run. -/
theorem handle_close_characterization_witness :
    ((main ⟨some "o", none, true⟩ envOK).2 = Except.ok () ∧
     Event.closeHandle Handle.request ∈ (main ⟨some "o", none, true⟩ envOK).1 ∧
     Event.closeHandle Handle.data ∈ (main ⟨some "o", none, true⟩ envOK).1) ∧
    ((main ⟨none, some "i", true⟩ envOK).2 = Except.ok () ∧
     Event.closeHandle Handle.request ∈ (main ⟨none, some "i", true⟩ envOK).1 ∧
     Event.closeHandle Handle.data ∈ (main ⟨none, some "i", true⟩ envOK).1) ∧
    ((main ⟨none, some "i", true⟩ envNoFile).2 =
        Except.error MainError.fileReadError ∧
     Event.closeHandle Handle.request ∉ (main ⟨none, some "i", true⟩ envNoFile).1 ∧
     Event.closeHandle Handle.data ∉ (main ⟨none, some "i", true⟩ envNoFile).1) :=
  ⟨handle_close_characterization.1 "o" true envOK dReq.path dDat.path
     (by decide) rfl,
   handle_close_characterization.2.1 "i" true envOK dReq.path dDat.path
     [0xAA, 0xBB] (by decide) rfl rfl,
   handle_close_characterization.2.2 "i" true envNoFile dReq.path dDat.path
     (by decide) rfl rfl⟩

/-- C4 (amended): the dry-run dump is a single-line space-separated hex
rendering plus a length summary - for a read the printed lines are the
command notice, 05 84 d8 00 00 00 and a reported length of 6 bytes, and
for a write of payload aa bb the lines are the command notice, the
10-byte frame in hex and a reported length of 10 bytes - while the
4-byte-column 4-digit-offset dump exists as the separate helper
format_to_hex_template, which renders the read header as the two lines
0000  05 84 d8 00 and 0004  00 00 but is not what dry-run prints. -/
theorem dry_run_dump_format :
    format_to_hex_template get_keymap_header =
      "0000  05 84 d8 00\n0004  00 00\n" ∧
    get_keymap_header.length = 6 ∧
    (∀ (out : String) (env : Env) (rp dp : List Char), out ≠ "" →
      get_device env.devices = Except.ok (rp, dp) →
      printedLines (main ⟨some out, none, false⟩ env).1 =
        ["Command to read keymap and save to " ++ out ++
           " (no action taken, use -f to execute).",
         "05 84 d8 00 00 00",
         "Length: 6 bytes"]) ∧
    (∀ (inf : String) (env : Env) (rp dp : List Char), inf ≠ "" →
      get_device env.devices = Except.ok (rp, dp) →
      env.input_bytes = some [0xAA, 0xBB] →
      printedLines (main ⟨none, some inf, false⟩ env).1 =
        ["Command to write keymap from " ++ inf ++
           " to keyboard (no action taken, use -f to execute).",
         "06 04 d8 00 40 00 00 00 aa bb",
         "Length: 10 bytes"]) := by
  refine ⟨by decide, rfl, ?_, ?_⟩
  · intro out env rp dp hout hres
    have ht : truthy (some out) = true := by simp [truthy, hout]
    have e1 : list_to_hex get_keymap_header = "05 84 d8 00 00 00" := by decide
    have e2 : "Length: " ++ toString get_keymap_header.length ++ " bytes" =
        "Length: 6 bytes" := by decide
    simp [main, ht, truthy, hout, hres, main_resolved, main_opened,
          read_events, printedLines, e1, e2]
  · intro inf env rp dp hinf hres hfile
    have ht : truthy (some inf) = true := by simp [truthy, hinf]
    have e3 : list_to_hex (set_keymap_header ++ [0xAA, 0xBB]) =
        "06 04 d8 00 40 00 00 00 aa bb" := by decide
    have e4 : "Length: " ++ toString (set_keymap_header.length + 2) ++
        " bytes" = "Length: 10 bytes" := by decide
    simp [main, ht, truthy, hinf, hres, hfile, main_resolved, main_opened,
          write_step, printedLines, e3, e4]

/-- Witness for C4 (amended): the dry-run printed lines on concrete
environments. -/
theorem dry_run_dump_format_witness :
    printedLines (main ⟨some "o", none, false⟩ envShort).1 =
      ["Command to read keymap and save to " ++ "o" ++
         " (no action taken, use -f to execute).",
       "05 84 d8 00 00 00",
       "Length: 6 bytes"] ∧
    printedLines (main ⟨none, some "i", false⟩ envOK).1 =
      ["Command to write keymap from " ++ "i" ++
         " to keyboard (no action taken, use -f to execute).",
       "06 04 d8 00 40 00 00 00 aa bb",
       "Length: 10 bytes"] :=
  ⟨dry_run_dump_format.2.2.1 "o" envShort dReq.path dDat.path
     (by decide) rfl,
   dry_run_dump_format.2.2.2 "i" envOK dReq.path dDat.path
     (by decide) rfl rfl⟩

/-- Counterexample to C4 as stated: the dry-run read dump is the single
line 05 84 d8 00 00 00; the offset-prefixed line 0000  05 84 d8 00 never
appears among the printed lines. -/
theorem dry_run_dump_counterexample :
    printedLines (main ⟨some "o", none, false⟩ envOK).1 =
      ["Command to read keymap and save to o (no action taken, use -f to execute).",
       "05 84 d8 00 00 00", "Length: 6 bytes"] ∧
    ("0000  05 84 d8 00" ∈ printedLines (main ⟨some "o", none, false⟩ envOK).1 →
      False) :=
  ⟨by decide, by decide⟩

/-- C10: dry-run invocations still enumerate, resolve and open both
handles before printing; a resolution failure aborts a dry run with that
resolution error after the enumeration event alone, a dry write reads
the input file (and aborts with a file error when it is missing), and no
feature-report event occurs in any dry trace. -/
theorem dry_run_still_resolves :
    (∀ (args : Args) (env : Env) (e : ResolveError),
      ((truthy args.read = true ∧ truthy args.write = false) ∨
       (truthy args.read = false ∧ truthy args.write = true)) →
      get_device env.devices = Except.error e →
      main args env = ([Event.enumerate],
        Except.error (MainError.resolveError e))) ∧
    (∀ (out : String) (env : Env) (rp dp : List Char), out ≠ "" →
      get_device env.devices = Except.ok (rp, dp) →
      main ⟨some out, none, false⟩ env =
        ([Event.enumerate, Event.openPath Handle.request rp,
          Event.openPath Handle.data dp,
          Event.printLine
            ("Command to read keymap and save to " ++ out ++
             " (no action taken, use -f to execute)."),
          Event.printLine (list_to_hex get_keymap_header),
          Event.printLine "Length: 6 bytes",
          Event.closeHandle Handle.request, Event.closeHandle Handle.data],
         Except.ok ())) ∧
    (∀ (inf : String) (env : Env) (rp dp : List Char) (B : List Nat), inf ≠ "" →
      get_device env.devices = Except.ok (rp, dp) → env.input_bytes = some B →
      main ⟨none, some inf, false⟩ env =
        ([Event.enumerate, Event.openPath Handle.request rp,
          Event.openPath Handle.data dp, Event.openInputFile inf,
          Event.printLine
            ("Command to write keymap from " ++ inf ++
             " to keyboard (no action taken, use -f to execute)."),
          Event.printLine (list_to_hex (set_keymap_header ++ B)),
          Event.printLine
            ("Length: " ++ toString (set_keymap_header ++ B).length ++ " bytes"),
          Event.closeHandle Handle.request, Event.closeHandle Handle.data],
         Except.ok ())) ∧
    (∀ (inf : String) (env : Env) (rp dp : List Char), inf ≠ "" →
      get_device env.devices = Except.ok (rp, dp) → env.input_bytes = none →
      main ⟨none, some inf, false⟩ env =
        ([Event.enumerate, Event.openPath Handle.request rp,
          Event.openPath Handle.data dp, Event.openInputFile inf],
         Except.error MainError.fileReadError)) := by
  refine ⟨?_, ?_, ?_, ?_⟩
  · intro args env e h hres
    rcases h with ⟨h1, h2⟩ | ⟨h1, h2⟩ <;>
      simp [main, h1, h2, hres, main_resolved]
  · intro out env rp dp hout hres
    have ht : truthy (some out) = true := by simp [truthy, hout]
    have e2 : "Length: " ++ toString get_keymap_header.length ++ " bytes" =
        "Length: 6 bytes" := by decide
    simp [main, ht, truthy, hout, hres, main_resolved, main_opened,
          read_events, e2]
  · intro inf env rp dp B hinf hres hfile
    have ht : truthy (some inf) = true := by simp [truthy, hinf]
    simp [main, ht, truthy, hinf, hres, hfile, main_resolved, main_opened,
          write_step]
  · intro inf env rp dp hinf hres hfile
    have ht : truthy (some inf) = true := by simp [truthy, hinf]
    simp [main, ht, truthy, hinf, hres, hfile, main_resolved, main_opened,
          write_step]

/-- Witness for C10: the four dry-run behaviours on concrete
environments. -/
theorem dry_run_still_resolves_witness :
    main ⟨some "o", none, false⟩ envEmpty =
      ([Event.enumerate],
       Except.error (MainError.resolveError ResolveError.deviceNotFound)) ∧
    main ⟨some "o", none, false⟩ envOK =
      ([Event.enumerate, Event.openPath Handle.request dReq.path,
        Event.openPath Handle.data dDat.path,
        Event.printLine
          ("Command to read keymap and save to " ++ "o" ++
           " (no action taken, use -f to execute)."),
        Event.printLine (list_to_hex get_keymap_header),
        Event.printLine "Length: 6 bytes",
        Event.closeHandle Handle.request, Event.closeHandle Handle.data],
       Except.ok ()) ∧
    main ⟨none, some "i", false⟩ envOK =
      ([Event.enumerate, Event.openPath Handle.request dReq.path,
        Event.openPath Handle.data dDat.path, Event.openInputFile "i",
        Event.printLine
          ("Command to write keymap from " ++ "i" ++
           " to keyboard (no action taken, use -f to execute)."),
        Event.printLine (list_to_hex (set_keymap_header ++ [0xAA, 0xBB])),
        Event.printLine
          ("Length: " ++ toString (set_keymap_header ++ [0xAA, 0xBB]).length ++
           " bytes"),
        Event.closeHandle Handle.request, Event.closeHandle Handle.data],
       Except.ok ()) ∧
    main ⟨none, some "i", false⟩ envNoFile =
      ([Event.enumerate, Event.openPath Handle.request dReq.path,
        Event.openPath Handle.data dDat.path, Event.openInputFile "i"],
       Except.error MainError.fileReadError) :=
  ⟨dry_run_still_resolves.1 ⟨some "o", none, false⟩ envEmpty
     ResolveError.deviceNotFound (Or.inl ⟨by decide, rfl⟩) rfl,
   dry_run_still_resolves.2.1 "o" envOK dReq.path dDat.path
     (by decide) rfl,
   dry_run_still_resolves.2.2.1 "i" envOK dReq.path dDat.path [0xAA, 0xBB]
     (by decide) rfl rfl,
   dry_run_still_resolves.2.2.2 "i" envNoFile dReq.path dDat.path
     (by decide) rfl rfl⟩

end NPKU


